import Mathlib

/-!
Shallow embedding of the underwriting decision engine of
`src/agents/underwriting_agent.py` (`UnderwritingAgent.handle` and
`UnderwritingAgent._emi`), with numeric values modelled as exact
rationals.  External I/O (database lookup, best-effort credit-bureau
call, OCR text extraction) is modelled by its resolved result, which is
part of the input: the customer record fetched (or `none`), the
optional bureau score override, and the OCR-extracted salary (already
parsed to a number, `none` when no document was supplied or extraction
failed or yielded a falsy value).
-/

namespace UnderwritingAgent

/-- A value found under a key of the `message.content` dict:
`absent` (key missing), `null` (Python `None` or the empty string, both
explicitly treated as missing by the code), `num q` (a value that
`float(...)` parses to `q`), or `bad` (a truthy value on which
`float(...)` raises, caught and treated as no value). -/
inductive ContentVal where
  | absent : ContentVal
  | null : ContentVal
  | num : ℚ → ContentVal
  | bad : ContentVal
deriving DecidableEq

/-- The result of `float(v)` under the code's `try/except` wrappers:
`some q` when parsing succeeds, `none` otherwise. -/
def ContentVal.toNum : ContentVal → Option ℚ
  | .num q => some q
  | _ => none

/-- Python truthiness of a content value: a number is truthy iff it is
nonzero; an unparsable-but-present value (nonempty string) is truthy;
a missing key or `None`/`""` is falsy. -/
def ContentVal.truthy : ContentVal → Bool
  | .num q => decide (q ≠ 0)
  | .bad => true
  | _ => false

/-- Python truthiness of an optional float (`if doc_monthly_salary:`):
`None` and `0.0` are falsy, every other number is truthy. -/
def optTruthy : Option ℚ → Bool
  | some q => decide (q ≠ 0)
  | none => false

/-- Python `int(x)` on a float: truncation toward zero. -/
def ratTrunc (q : ℚ) : ℤ := if 0 ≤ q then ⌊q⌋ else ⌈q⌉

/-- Python `round(x, 2)`: round to two decimal places, ties to even. -/
def pyRound2 (q : ℚ) : ℚ :=
  let s := q * 100
  let f := ⌊s⌋
  let frac := s - (f : ℚ)
  let r : ℤ :=
    if frac < 1 / 2 then f
    else if 1 / 2 < frac then f + 1
    else if f % 2 = 0 then f else f + 1
  (r : ℚ) / 100

/-- Model of `UnderwritingAgent._emi`: the standard EMI formula.  Returns `0`
for a nonpositive tenure; for a zero monthly rate the principal is
divided evenly across the months. -/
def emi (principal annual_rate : ℚ) (months : ℤ) : ℚ :=
  if months ≤ 0 then 0
  else
    let r := annual_rate / 12 / 100
    if r = 0 then principal / (months : ℚ)
    else principal * r * (1 + r) ^ months.toNat / ((1 + r) ^ months.toNat - 1)

/-- The customer record returned by `db.get_customer`, after the code's
numeric coercions (`int(... or 0)`, `float(... or 0)`). -/
structure Customer where
  credit_score : ℤ
  pre_approved_limit : ℚ
  annual_income : ℚ
deriving DecidableEq

/-- The inputs of one evaluation of `UnderwritingAgent.handle`:
the relevant `message.content` fields plus the resolved results of the
external calls the handler makes. -/
structure Content where
  /-- Result of `self.db.get_customer(customer_id)`; `none` when the id
  is missing or the lookup fails. -/
  customer : Option Customer
  /-- Resolved result of the best-effort credit-bureau HTTP call:
  `some s` when it returned 200 with a score, `none` on any failure
  (the code then keeps the DB score). -/
  bureauScore : Option ℤ
  /-- `float(content.get("loan_amount", 0) or 0)`; `none` models the
  missing/falsy/unparsable cases, all coerced to `0`. -/
  loan_amount : Option ℚ
  /-- `int(content.get("tenure_months", 36) or 36)`; `none` models the
  missing/falsy/unparsable cases, all coerced to `36`. -/
  tenure_months : Option ℤ
  /-- The `monthly_salary` content field (explicit caller-provided). -/
  monthly_salary : ContentVal
  /-- The `monthly_salary_from_docs` content field (doc-provided). -/
  monthly_salary_from_docs : ContentVal
  /-- The salary the in-engine OCR pass would produce: `some q` when a
  salary slip is present and extraction yields a truthy value `q`,
  else `none`. -/
  ocr_monthly_salary : Option ℚ
  /-- The `monthly_salary_from_db_estimate` content field. -/
  monthly_salary_from_db_estimate : ContentVal
  /-- The OCR confidence value the handler ends up with (`ocr_conf`). -/
  ocr_conf : ℚ
deriving DecidableEq

/-- An entry of the `anomalies_detected` list. -/
inductive Anomaly where
  | salary_mismatch (doc_salary db_salary ratio : ℚ) : Anomaly
  | low_ocr_confidence (confidence : ℚ) : Anomaly
deriving DecidableEq

/-- The `loan_details` sub-dict of an approved decision. -/
structure LoanDetails where
  application_id : ℕ
  loan_amount : ℤ
  interest_rate : ℚ
  tenure_months : ℤ
  monthly_emi : ℤ
  processing_fee : ℚ
deriving DecidableEq

/-- The decision record (`decision_obj`) returned by the handler.
Dict keys that a given code path leaves absent are modelled by the
field's default (`none`, `false`, `[]`, `0`). -/
structure Decision where
  decision : String
  reasons : List String := []
  interest_rate : Option ℚ := none
  monthly_emi : Option ℤ := none
  loan_details : Option LoanDetails := none
  emi_ratio : Option ℚ := none
  monthly_salary_used : Option ℚ := none
  ocr_confidence : ℚ := 0
  requires_income_doc : Bool := false
  anomalies_detected : List Anomaly := []
  flag_for_manual_review : Bool := false
  income_provenance : Option String := none
  approval_type : Option String := none
  credit_score_used : ℤ := 0
deriving DecidableEq

/-- The income-resolution `if/elif` chain of `handle` (lines 336-361):
returns the selected `monthly_salary` and `income_provenance`.
Priority: doc-provided, explicit, OCR-extracted, db estimate, then the
system-of-record monthly income; each step uses Python truthiness, and
an unparsable-but-truthy db estimate leaves the salary unset without
falling through to the db-derived source. -/
def resolveIncome (c : Content) (monthly_income_db : ℚ) :
    Option ℚ × Option String :=
  let doc := c.monthly_salary_from_docs.toNum
  let explicitSalary := c.monthly_salary.toNum
  if optTruthy doc then (doc, some "doc_provided")
  else if optTruthy explicitSalary then (explicitSalary, some "explicit_provided")
  else if optTruthy c.ocr_monthly_salary then
    (c.ocr_monthly_salary, some "ocr_extracted")
  else if c.monthly_salary_from_db_estimate.truthy then
    match c.monthly_salary_from_db_estimate.toNum with
    | some q => (some q, some "db_estimate")
    | none => (none, none)
  else if 0 < monthly_income_db then
    (some monthly_income_db, some "db_derived")
  else (none, none)

/-- The body of `UnderwritingAgent.handle` after the customer lookup
succeeded (everything below line 255 of the source): credit-score
gate, cap gate, income branch, affordability check, anomaly checks and
the trailing `monthly_salary_used` backfill. -/
def handleFound (c : Content) (cust : Customer) (now : ℕ) : Decision :=
  let loan_amount := c.loan_amount.getD 0
  let months := c.tenure_months.getD 36
  let credit_score := c.bureauScore.getD cust.credit_score
    let pre_limit := cust.pre_approved_limit
    let monthly_income_db := cust.annual_income / 12
    let inc := resolveIncome c monthly_income_db
    let prov := inc.2
    let d : Decision :=
      if credit_score < 700 then
        { decision := "rejected", reasons := ["credit_score_below_700"],
          ocr_confidence := c.ocr_conf }
      else
        let annual_rate : ℚ := if loan_amount ≤ pre_limit then 12 else 14
        let emi_val := emi loan_amount annual_rate months
        let emi_ceil : ℤ := ⌈emi_val⌉
        if 2 * pre_limit < loan_amount ∧ 0 < pre_limit then
          { decision := "rejected",
            reasons := ["amount_exceeds_two_times_preapproved"],
            ocr_confidence := c.ocr_conf }
        else
          let rid : Bool := decide (pre_limit < loan_amount)
          let ms := inc.1.getD 0
          if 0 < ms then
            if emi_val ≤ 1 / 2 * ms then
              let anom1 : List Anomaly × Bool :=
                if 0 < monthly_income_db then
                  let ratio := max (ms / monthly_income_db) (monthly_income_db / ms)
                  if 3 ≤ ratio then
                    ([.salary_mismatch ms monthly_income_db (pyRound2 ratio)], true)
                  else ([], false)
                else ([], false)
              let anom2 : List Anomaly × Bool :=
                if 0 < c.ocr_conf ∧ c.ocr_conf < 9 / 20 then
                  ([.low_ocr_confidence c.ocr_conf], true)
                else ([], false)
              { decision := "approved",
                approval_type := some "income_check_passed",
                interest_rate := some annual_rate,
                monthly_emi := some emi_ceil,
                loan_details := some {
                  application_id := now,
                  loan_amount := ratTrunc loan_amount,
                  interest_rate := annual_rate,
                  tenure_months := months,
                  monthly_emi := emi_ceil,
                  processing_fee := if 12 < annual_rate then 5000 else 0 },
                emi_ratio := some (emi_val / ms),
                monthly_salary_used := some ms,
                ocr_confidence := c.ocr_conf,
                requires_income_doc := rid,
                anomalies_detected := anom1.1 ++ anom2.1,
                flag_for_manual_review := anom1.2 || anom2.2,
                income_provenance := prov }
            else
              { decision := "rejected",
                reasons := ["emi_exceeds_50_percent_of_salary"],
                interest_rate := some annual_rate,
                monthly_emi := some emi_ceil,
                emi_ratio := some (emi_val / ms),
                monthly_salary_used := some ms,
                ocr_confidence := c.ocr_conf,
                requires_income_doc := rid,
                income_provenance := prov }
          else
            if loan_amount ≤ pre_limit then
              { decision := "approved",
                approval_type := some "instant",
                interest_rate := some 12,
                monthly_emi := some emi_ceil,
                loan_details := some {
                  application_id := now,
                  loan_amount := ratTrunc loan_amount,
                  interest_rate := 12,
                  tenure_months := months,
                  monthly_emi := emi_ceil,
                  processing_fee := 0 },
                ocr_confidence := c.ocr_conf,
                requires_income_doc := rid,
                income_provenance := some "instant_no_doc" }
            else
              { decision := "needs_salary_slip",
                reasons := ["salary_slip_required"],
                monthly_emi := some emi_ceil,
                interest_rate := some annual_rate,
                ocr_confidence := c.ocr_conf,
                requires_income_doc := rid,
                income_provenance := some (prov.getD "missing") }
    let d2 : Decision := { d with credit_score_used := credit_score }
    if d2.monthly_salary_used = none ∧ 0 < monthly_income_db then
      { d2 with monthly_salary_used := some monthly_income_db,
                income_provenance := some (d2.income_provenance.getD "db_derived") }
    else d2

/-- Model of `UnderwritingAgent.handle`: the underwriting decision engine.
`now` is the millisecond timestamp used for the `application_id`.
The customer-not-found early return (line 251) carries only `decision`,
`reasons` and the message, modelled by leaving every other field at its
default.  The human-readable `message` strings are not modelled. -/
def handle (c : Content) (now : ℕ) : Decision :=
  match c.customer with
  | none => { decision := "rejected", reasons := ["customer_not_found"] }
  | some cust => handleFound c cust now

/-- The effective credit score used by the handler: the bureau score
when the external call succeeded, else the stored score. -/
def effScore (c : Content) (cust : Customer) : ℤ :=
  c.bureauScore.getD cust.credit_score

/-- The interest rate the handler selects before computing the EMI. -/
def selectedRate (c : Content) (cust : Customer) : ℚ :=
  if c.loan_amount.getD 0 ≤ cust.pre_approved_limit then 12 else 14

/-- The EMI value the handler computes for decisioning. -/
def decisionEmi (c : Content) (cust : Customer) : ℚ :=
  emi (c.loan_amount.getD 0) (selectedRate c cust) (c.tenure_months.getD 36)

/-- The absolute-cap gate condition. -/
def capExceeded (c : Content) (cust : Customer) : Prop :=
  2 * cust.pre_approved_limit < c.loan_amount.getD 0 ∧ 0 < cust.pre_approved_limit

instance (c : Content) (cust : Customer) : Decidable (capExceeded c cust) := by
  unfold capExceeded; infer_instance

def C1cust : Customer := { credit_score := 750, pre_approved_limit := 100000, annual_income := 0 }

def C1c : Content :=
  { customer := some C1cust, bureauScore := none,
    loan_amount := some 100000, tenure_months := some 1,
    monthly_salary := .num 202000, monthly_salary_from_docs := .absent,
    ocr_monthly_salary := none, monthly_salary_from_db_estimate := .absent,
    ocr_conf := 0 }

def C2cust : Customer := { credit_score := 750, pre_approved_limit := 100000, annual_income := 0 }

def C2c : Content :=
  { customer := some C2cust, bureauScore := none,
    loan_amount := some 99950, tenure_months := some 1,
    monthly_salary := .num 201899, monthly_salary_from_docs := .absent,
    ocr_monthly_salary := none, monthly_salary_from_db_estimate := .absent,
    ocr_conf := 0 }

def C3cexCust : Customer := { credit_score := 600, pre_approved_limit := 100000, annual_income := 600000 }

def C3cexC : Content :=
  { customer := some C3cexCust, bureauScore := none,
    loan_amount := some 50000, tenure_months := some 12,
    monthly_salary := .absent, monthly_salary_from_docs := .num 60000,
    ocr_monthly_salary := none, monthly_salary_from_db_estimate := .absent,
    ocr_conf := 0 }

def C3wCust : Customer := { credit_score := 780, pre_approved_limit := 100000, annual_income := 600000 }

def C3wC : Content :=
  { customer := some C3wCust, bureauScore := none,
    loan_amount := some 50000, tenure_months := some 12,
    monthly_salary := .absent, monthly_salary_from_docs := .num 60000,
    ocr_monthly_salary := none, monthly_salary_from_db_estimate := .absent,
    ocr_conf := 0 }

def C4cexCust : Customer := { credit_score := 600, pre_approved_limit := 100000, annual_income := 0 }

def C4cexC : Content :=
  { customer := some C4cexCust, bureauScore := none,
    loan_amount := some 300000, tenure_months := some 12,
    monthly_salary := .absent, monthly_salary_from_docs := .absent,
    ocr_monthly_salary := none, monthly_salary_from_db_estimate := .absent,
    ocr_conf := 0 }

def C4wCust : Customer := { credit_score := 780, pre_approved_limit := 100000, annual_income := 0 }

def C4wC : Content :=
  { customer := some C4wCust, bureauScore := none,
    loan_amount := some 300000, tenure_months := some 12,
    monthly_salary := .absent, monthly_salary_from_docs := .absent,
    ocr_monthly_salary := none, monthly_salary_from_db_estimate := .absent,
    ocr_conf := 0 }

def C5cust : Customer := { credit_score := 780, pre_approved_limit := 100000, annual_income := 0 }

def C5cA : Content :=
  { customer := some C5cust, bureauScore := none,
    loan_amount := some 50000, tenure_months := some 12,
    monthly_salary := .absent, monthly_salary_from_docs := .absent,
    ocr_monthly_salary := none, monthly_salary_from_db_estimate := .absent,
    ocr_conf := 0 }

def C5cB : Content :=
  { customer := some C5cust, bureauScore := none,
    loan_amount := some 150000, tenure_months := some 12,
    monthly_salary := .absent, monthly_salary_from_docs := .absent,
    ocr_monthly_salary := none, monthly_salary_from_db_estimate := .absent,
    ocr_conf := 0 }

def C6cust : Customer := { credit_score := 780, pre_approved_limit := 100000, annual_income := 600000 }

def C6c : Content :=
  { customer := some C6cust, bureauScore := none,
    loan_amount := some 100000, tenure_months := some 1,
    monthly_salary := .absent, monthly_salary_from_docs := .num 300000,
    ocr_monthly_salary := none, monthly_salary_from_db_estimate := .absent,
    ocr_conf := 0 }

def C7cust : Customer := { credit_score := 780, pre_approved_limit := 100000, annual_income := 600000 }

def C7c : Content :=
  { customer := some C7cust, bureauScore := none,
    loan_amount := some 150000, tenure_months := some 12,
    monthly_salary := .absent, monthly_salary_from_docs := .num (-100),
    ocr_monthly_salary := none, monthly_salary_from_db_estimate := .absent,
    ocr_conf := 0 }

def C7z : Content :=
  { customer := none, bureauScore := none,
    loan_amount := none, tenure_months := none,
    monthly_salary := .absent, monthly_salary_from_docs := .num 0,
    ocr_monthly_salary := none, monthly_salary_from_db_estimate := .absent,
    ocr_conf := 0 }

def C8cust : Customer := { credit_score := 600, pre_approved_limit := 100000, annual_income := 0 }

def C8c : Content :=
  { customer := some C8cust, bureauScore := none,
    loan_amount := some 50000, tenure_months := some 12,
    monthly_salary := .absent, monthly_salary_from_docs := .num 50000,
    ocr_monthly_salary := none, monthly_salary_from_db_estimate := .absent,
    ocr_conf := 0 }

def C9cexCust : Customer := { credit_score := 600, pre_approved_limit := 100000, annual_income := 0 }

def C9cexC : Content :=
  { customer := some C9cexCust, bureauScore := none,
    loan_amount := some 150000, tenure_months := some 12,
    monthly_salary := .absent, monthly_salary_from_docs := .absent,
    ocr_monthly_salary := none, monthly_salary_from_db_estimate := .absent,
    ocr_conf := 0 }

def C9wCust : Customer := { credit_score := 780, pre_approved_limit := 100000, annual_income := 0 }

def C9wC : Content :=
  { customer := some C9wCust, bureauScore := none,
    loan_amount := some 150000, tenure_months := some 12,
    monthly_salary := .absent, monthly_salary_from_docs := .absent,
    ocr_monthly_salary := none, monthly_salary_from_db_estimate := .absent,
    ocr_conf := 0 }


theorem handle_eq_found (c : Content) (now : ℕ) (cust : Customer)
    (hc : c.customer = some cust) : handle c now = handleFound c cust now := by
  unfold handle
  rw [hc]

/-- Claim C1: the affordability boundary is inclusive.  For every
evaluation with the customer found, effective credit score at least
700, amount within the 2x pre-approved cap, and a positive monthly
income resolved: when the computed EMI equals exactly half the monthly
income the decision is approved with loan terms populated (processing
fee 5000 when the selected rate exceeds 12, else 0); when the EMI
strictly exceeds half the income the decision is rejected with reason
emi_exceeds_50_percent_of_salary. -/
theorem C1_affordability_boundary (c : Content) (now : ℕ) (cust : Customer) (ms : ℚ)
    (hc : c.customer = some cust)
    (hscore : 700 ≤ effScore c cust)
    (hcap : ¬ capExceeded c cust)
    (hms : (resolveIncome c (cust.annual_income / 12)).1 = some ms)
    (hpos : 0 < ms) :
    (decisionEmi c cust = 1 / 2 * ms →
      (handle c now).decision = "approved" ∧
      ∃ ld, (handle c now).loan_details = some ld ∧
        ld.processing_fee = (if 12 < selectedRate c cust then 5000 else 0)) ∧
    (1 / 2 * ms < decisionEmi c cust →
      (handle c now).decision = "rejected" ∧
      (handle c now).reasons = ["emi_exceeds_50_percent_of_salary"]) := by
  rw [handle_eq_found c now cust hc]
  have h1 : ¬ (c.bureauScore.getD cust.credit_score < 700) := by
    simp only [effScore] at hscore; omega
  have hcap' : ¬ (2 * cust.pre_approved_limit < c.loan_amount.getD 0 ∧
      0 < cust.pre_approved_limit) := hcap
  simp only [handleFound, hms, Option.getD_some, if_neg h1, if_neg hcap', if_pos hpos,
    decisionEmi, selectedRate]
  constructor
  · intro h
    rw [if_pos (le_of_eq h)]
    simp
  · intro h
    rw [if_neg (not_le.mpr h)]
    simp

/-- Claim C2 (amended): the displayed monthly_emi equals the ceiling
of the raw EMI, but the affordability decision compares the raw,
unrounded EMI against half the monthly income. -/
theorem C2_emi_rounding (c : Content) (now : ℕ) (cust : Customer) (ms : ℚ)
    (hc : c.customer = some cust)
    (hscore : 700 ≤ effScore c cust)
    (hcap : ¬ capExceeded c cust)
    (hms : (resolveIncome c (cust.annual_income / 12)).1 = some ms)
    (hpos : 0 < ms) :
    (handle c now).monthly_emi = some ⌈decisionEmi c cust⌉ ∧
    ((handle c now).decision = "approved" ↔ decisionEmi c cust ≤ 1 / 2 * ms) := by
  rw [handle_eq_found c now cust hc]
  have h1 : ¬ (c.bureauScore.getD cust.credit_score < 700) := by
    simp only [effScore] at hscore; omega
  have hcap' : ¬ (2 * cust.pre_approved_limit < c.loan_amount.getD 0 ∧
      0 < cust.pre_approved_limit) := hcap
  simp only [handleFound, hms, Option.getD_some, if_neg h1, if_neg hcap', if_pos hpos,
    decisionEmi, selectedRate]
  by_cases hle : emi (c.loan_amount.getD 0)
      (if c.loan_amount.getD 0 ≤ cust.pre_approved_limit then (12:ℚ) else 14)
      (c.tenure_months.getD 36) ≤ 1 / 2 * ms
  · rw [if_pos hle]
    refine ⟨by simp, ?_⟩
    simp only [true_iff]
    constructor
    · intro _; exact hle
    · intro _; simp
  · rw [if_neg hle]
    refine ⟨by simp, ?_⟩
    constructor
    · intro h
      exact absurd h (by simp)
    · intro h
      exact absurd h hle

/-- Claim C3 (amended): on evaluations that pass the credit-score and
cap gates, when both a doc-provided and a db-derived candidate are
present and positive, the resolver selects the doc-provided value and
the record reports provenance doc_provided with that value as
monthly_salary_used. -/
theorem C3_income_priority (c : Content) (now : ℕ) (cust : Customer) (d : ℚ)
    (hc : c.customer = some cust)
    (hscore : 700 ≤ effScore c cust)
    (hcap : ¬ capExceeded c cust)
    (hdoc : c.monthly_salary_from_docs.toNum = some d) (hdpos : 0 < d)
    (hdb : 0 < cust.annual_income / 12) :
    resolveIncome c (cust.annual_income / 12) = (some d, some "doc_provided") ∧
    (handle c now).income_provenance = some "doc_provided" ∧
    (handle c now).monthly_salary_used = some d := by
  have hres : resolveIncome c (cust.annual_income / 12) = (some d, some "doc_provided") := by
    unfold resolveIncome
    rw [hdoc]
    rw [if_pos (by simp [optTruthy, hdpos.ne'])]
  refine ⟨hres, ?_⟩
  rw [handle_eq_found c now cust hc]
  have h1 : ¬ (c.bureauScore.getD cust.credit_score < 700) := by
    simp only [effScore] at hscore; omega
  have hcap' : ¬ (2 * cust.pre_approved_limit < c.loan_amount.getD 0 ∧
      0 < cust.pre_approved_limit) := hcap
  simp only [handleFound, hres, Option.getD_some, if_neg h1, if_neg hcap', if_pos hdpos]
  split_ifs <;> simp_all

/-- Claim C4 (amended): for every request with the customer found,
effective credit score at least 700, positive pre-approved limit and
amount over twice that limit, the decision is rejected with reason
amount_exceeds_two_times_preapproved, regardless of income. -/
theorem C4_cap_invariant (c : Content) (now : ℕ) (cust : Customer)
    (hc : c.customer = some cust)
    (hscore : 700 ≤ effScore c cust)
    (hcap : capExceeded c cust) :
    (handle c now).decision = "rejected" ∧
    (handle c now).reasons = ["amount_exceeds_two_times_preapproved"] := by
  rw [handle_eq_found c now cust hc]
  have h1 : ¬ (c.bureauScore.getD cust.credit_score < 700) := by
    simp only [effScore] at hscore; omega
  have hcap' : 2 * cust.pre_approved_limit < c.loan_amount.getD 0 ∧
      0 < cust.pre_approved_limit := hcap
  simp only [handleFound, if_neg h1, if_pos hcap']
  split_ifs <;> simp

/-- Claim C5: with credit score at least 700, amount within the cap
and no income resolved from any source, a request within the
pre-approved limit is approved on the instant path (rate 12,
processing fee 0, provenance instant_no_doc), and a request above the
limit yields needs_salary_slip with reason salary_slip_required. -/
theorem C5_missing_income_branches (c : Content) (now : ℕ) (cust : Customer)
    (hc : c.customer = some cust)
    (hscore : 700 ≤ effScore c cust)
    (hcap : ¬ capExceeded c cust)
    (hms : (resolveIncome c (cust.annual_income / 12)).1 = none) :
    (c.loan_amount.getD 0 ≤ cust.pre_approved_limit →
      (handle c now).decision = "approved" ∧
      (handle c now).approval_type = some "instant" ∧
      (handle c now).interest_rate = some 12 ∧
      (handle c now).income_provenance = some "instant_no_doc" ∧
      ∃ ld, (handle c now).loan_details = some ld ∧ ld.processing_fee = 0) ∧
    (cust.pre_approved_limit < c.loan_amount.getD 0 →
      (handle c now).decision = "needs_salary_slip" ∧
      (handle c now).reasons = ["salary_slip_required"]) := by
  rw [handle_eq_found c now cust hc]
  have h1 : ¬ (c.bureauScore.getD cust.credit_score < 700) := by
    simp only [effScore] at hscore; omega
  have hcap' : ¬ (2 * cust.pre_approved_limit < c.loan_amount.getD 0 ∧
      0 < cust.pre_approved_limit) := hcap
  simp only [handleFound, hms, Option.getD_none, if_neg h1, if_neg hcap',
    if_neg (lt_irrefl (0 : ℚ))]
  constructor
  · intro hle
    rw [if_pos hle]
    split_ifs <;> simp
  · intro hgt
    rw [if_neg (not_le.mpr hgt)]
    split_ifs <;> simp

/-- Claim C6: anomaly detection does not block approval.  When the
affordability gate passes and both the income used and the db monthly
income are positive with max ratio at least 3, the decision stays
approved while the anomalies list carries a salary-mismatch record
with the doc value, the db value and the (two-decimal rounded) ratio,
and flag_for_manual_review is true. -/
theorem C6_anomaly_non_blocking (c : Content) (now : ℕ) (cust : Customer) (ms : ℚ)
    (hc : c.customer = some cust)
    (hscore : 700 ≤ effScore c cust)
    (hcap : ¬ capExceeded c cust)
    (hms : (resolveIncome c (cust.annual_income / 12)).1 = some ms)
    (hpos : 0 < ms)
    (haff : decisionEmi c cust ≤ 1 / 2 * ms)
    (hdb : 0 < cust.annual_income / 12)
    (hratio : 3 ≤ max (ms / (cust.annual_income / 12)) ((cust.annual_income / 12) / ms)) :
    (handle c now).decision = "approved" ∧
    Anomaly.salary_mismatch ms (cust.annual_income / 12)
        (pyRound2 (max (ms / (cust.annual_income / 12)) ((cust.annual_income / 12) / ms)))
      ∈ (handle c now).anomalies_detected ∧
    (handle c now).flag_for_manual_review = true := by
  rw [handle_eq_found c now cust hc]
  have h1 : ¬ (c.bureauScore.getD cust.credit_score < 700) := by
    simp only [effScore] at hscore; omega
  have hcap' : ¬ (2 * cust.pre_approved_limit < c.loan_amount.getD 0 ∧
      0 < cust.pre_approved_limit) := hcap
  simp only [decisionEmi, selectedRate] at haff
  simp only [handleFound, hms, Option.getD_some, if_neg h1, if_neg hcap', if_pos hpos,
    if_pos haff, if_pos hdb, if_pos hratio]
  split_ifs <;> simp_all

/-- Claim C8 (amended): for every evaluation with the customer found,
emi_ratio is populated if and only if the evaluation reaches the
affordability check, i.e. credit score at least 700, amount within
the cap, and a positively-resolved income. -/
theorem C8_emi_ratio_iff (c : Content) (now : ℕ) (cust : Customer)
    (hc : c.customer = some cust) :
    ((handle c now).emi_ratio ≠ none ↔
      700 ≤ effScore c cust ∧ ¬ capExceeded c cust ∧
      0 < (resolveIncome c (cust.annual_income / 12)).1.getD 0) := by
  rw [handle_eq_found c now cust hc]
  by_cases h1 : c.bureauScore.getD cust.credit_score < 700
  · have hnone : (handleFound c cust now).emi_ratio = none := by
      simp only [handleFound, if_pos h1]
      split_ifs <;> rfl
    rw [hnone]
    constructor
    · intro h
      exact absurd rfl h
    · rintro ⟨hA, -⟩
      simp only [effScore] at hA
      omega
  · by_cases h2 : 2 * cust.pre_approved_limit < c.loan_amount.getD 0 ∧
        0 < cust.pre_approved_limit
    · have hnone : (handleFound c cust now).emi_ratio = none := by
        simp only [handleFound, if_neg h1, if_pos h2]
        split_ifs <;> rfl
      rw [hnone]
      constructor
      · intro h
        exact absurd rfl h
      · rintro ⟨-, hB, -⟩
        exact absurd h2 hB
    · by_cases h3 : 0 < (resolveIncome c (cust.annual_income / 12)).1.getD 0
      · have hrhs : 700 ≤ effScore c cust ∧ ¬ capExceeded c cust ∧
            0 < (resolveIncome c (cust.annual_income / 12)).1.getD 0 :=
          ⟨by simp only [effScore]; omega, h2, h3⟩
        simp only [handleFound, if_neg h1, if_neg h2, if_pos h3]
        split_ifs <;> simp [hrhs.1, hrhs.2.1, hrhs.2.2]
      · have hnone : (handleFound c cust now).emi_ratio = none := by
          simp only [handleFound, if_neg h1, if_neg h2, if_neg h3]
          split_ifs <;> rfl
        rw [hnone]
        constructor
        · intro h
          exact absurd rfl h
        · rintro ⟨-, -, hC⟩
          exact absurd hC h3

/-- Claim C9 (amended): on evaluations that pass the credit-score and
cap gates, requires_income_doc is true exactly when the requested
amount exceeds the pre-approved limit; on earlier-gate rejections it
stays false. -/
theorem C9_requires_income_doc (c : Content) (now : ℕ) (cust : Customer)
    (hc : c.customer = some cust)
    (hscore : 700 ≤ effScore c cust)
    (hcap : ¬ capExceeded c cust) :
    ((handle c now).requires_income_doc = true ↔
      cust.pre_approved_limit < c.loan_amount.getD 0) := by
  rw [handle_eq_found c now cust hc]
  have h1 : ¬ (c.bureauScore.getD cust.credit_score < 700) := by
    simp only [effScore] at hscore; omega
  have hcap' : ¬ (2 * cust.pre_approved_limit < c.loan_amount.getD 0 ∧
      0 < cust.pre_approved_limit) := hcap
  simp only [handleFound, if_neg h1, if_neg hcap']
  split_ifs <;> simp_all

/-- Claim C10: the decision field is always one of approved, rejected
or needs_salary_slip, and manual_review_required is never returned;
manual review is expressed only through the separate flag and the
anomalies list. -/
theorem C10_decision_domain (c : Content) (now : ℕ) :
    ((handle c now).decision = "approved" ∨ (handle c now).decision = "rejected" ∨
      (handle c now).decision = "needs_salary_slip") ∧
    (handle c now).decision ≠ "manual_review_required" := by
  unfold handle
  rcases hcust : c.customer with _ | cust
  · simp
  · simp only [handleFound]
    split_ifs <;> simp

/-- Claim C7 (amended): a candidate equal to zero (or non-numeric) is
treated as absent and the resolver moves on, but a strictly negative
doc-provided candidate is selected by the resolver; the affordability
gate then treats the evaluation as having no income, so the negative
value is never used in the EMI comparison and never appears as
monthly_salary_used, and no error is raised. -/
theorem C7_candidate_presence (c : Content) (now : ℕ) (cust : Customer) (d : ℚ)
    (hc : c.customer = some cust)
    (hscore : 700 ≤ effScore c cust)
    (hcap : ¬ capExceeded c cust)
    (hdoc : c.monthly_salary_from_docs.toNum = some d) (hneg : d < 0)
    (c₂ : Content) (db₂ : ℚ)
    (hzero : c₂.monthly_salary_from_docs.toNum = some 0) :
    (resolveIncome c (cust.annual_income / 12)).1 = some d ∧
    (handle c now).monthly_salary_used ≠ some d ∧
    (handle c now).emi_ratio = none ∧
    ((handle c now).decision = "approved" ∨
      (handle c now).decision = "needs_salary_slip") ∧
    (resolveIncome c₂ db₂).2 ≠ some "doc_provided" := by
  have hres : resolveIncome c (cust.annual_income / 12) = (some d, some "doc_provided") := by
    unfold resolveIncome
    rw [hdoc]
    rw [if_pos (by simp [optTruthy, hneg.ne])]
  have h1 : ¬ (c.bureauScore.getD cust.credit_score < 700) := by
    simp only [effScore] at hscore; omega
  have hcap' : ¬ (2 * cust.pre_approved_limit < c.loan_amount.getD 0 ∧
      0 < cust.pre_approved_limit) := hcap
  rw [handle_eq_found c now cust hc]
  refine ⟨by rw [hres], ?_, ?_, ?_, ?_⟩
  · simp only [handleFound, hres, Option.getD_some, if_neg h1, if_neg hcap',
      if_neg (not_lt.mpr hneg.le)]
    split_ifs <;> simp_all
    all_goals rintro rfl
    all_goals linarith
  · simp only [handleFound, hres, Option.getD_some, if_neg h1, if_neg hcap',
      if_neg (not_lt.mpr hneg.le)]
    split_ifs <;> rfl
  · simp only [handleFound, hres, Option.getD_some, if_neg h1, if_neg hcap',
      if_neg (not_lt.mpr hneg.le)]
    split_ifs <;> simp
  · unfold resolveIncome
    rw [hzero]
    rw [if_neg (by simp [optTruthy])]
    rcases hm : c₂.monthly_salary_from_db_estimate.toNum with _ | q <;>
      split_ifs <;> simp [hm]

/-- Witness for C1 at a concrete input: loan 100000 over 1 month at
rate 12 gives EMI 101000, exactly half of the explicit salary 202000,
and the evaluation is approved. -/
theorem C1_witness :
    (handle C1c 0).decision = "approved" ∧
    ∃ ld, (handle C1c 0).loan_details = some ld ∧
      ld.processing_fee = (if 12 < selectedRate C1c C1cust then 5000 else 0) :=
  (C1_affordability_boundary C1c 0 C1cust 202000 rfl
    (by norm_num [effScore, C1c, C1cust])
    (by norm_num [capExceeded, C1c, C1cust])
    (by norm_num [resolveIncome, optTruthy, ContentVal.toNum, C1c, C1cust])
    (by norm_num)).1
    (by norm_num [decisionEmi, selectedRate, emi, C1c, C1cust])

/-- Counterexample to C2 as stated: with loan 99950 over 1 month the
raw EMI is 100949.5 and the salary is 201899, so the raw EMI equals
exactly half the salary and the code approves, although the ceiling
EMI 100950 (the displayed monthly_emi) exceeds half the salary.  The
decision is therefore made on the raw EMI, not on its ceiling. -/
theorem C2_counterexample :
    (handle C2c 0).decision = "approved" ∧
    (handle C2c 0).monthly_emi = some 100950 ∧
    ¬ ((100950 : ℚ) ≤ 1 / 2 * 201899) := by
  refine ⟨?_, ?_, by norm_num⟩ <;>
    norm_num [handle, handleFound, resolveIncome, emi, optTruthy, ContentVal.toNum,
      C2c, C2cust, Int.ceil_eq_iff]

/-- Witness for C2 (amended) at the same concrete input. -/
theorem C2_witness :
    (handle C2c 0).monthly_emi = some ⌈decisionEmi C2c C2cust⌉ ∧
    ((handle C2c 0).decision = "approved" ↔ decisionEmi C2c C2cust ≤ 1 / 2 * 201899) :=
  C2_emi_rounding C2c 0 C2cust 201899 rfl
    (by norm_num [effScore, C2c, C2cust])
    (by norm_num [capExceeded, C2c, C2cust])
    (by norm_num [resolveIncome, optTruthy, ContentVal.toNum, C2c, C2cust])
    (by norm_num)

/-- Counterexample to C3 as stated: with a positive doc-provided
candidate (60000) and a positive db-derived candidate (50000) but a
credit score below 700, the returned record reports provenance
db_derived and the db value as monthly_salary_used, not the
doc-provided value. -/
theorem C3_counterexample :
    (resolveIncome C3cexC (C3cexCust.annual_income / 12)).1 = some 60000 ∧
    0 < (60000 : ℚ) ∧ 0 < C3cexCust.annual_income / 12 ∧
    (handle C3cexC 0).income_provenance = some "db_derived" ∧
    (handle C3cexC 0).monthly_salary_used = some 50000 := by
  refine ⟨?_, by norm_num, by norm_num [C3cexCust], ?_, ?_⟩ <;>
    norm_num [handle, handleFound, resolveIncome, optTruthy, ContentVal.toNum,
      C3cexC, C3cexCust]

/-- Witness for C3 (amended) at a concrete input with doc salary
60000 and db-derived salary 50000. -/
theorem C3_witness :
    resolveIncome C3wC (C3wCust.annual_income / 12) = (some 60000, some "doc_provided") ∧
    (handle C3wC 0).income_provenance = some "doc_provided" ∧
    (handle C3wC 0).monthly_salary_used = some 60000 :=
  C3_income_priority C3wC 0 C3wCust 60000 rfl
    (by norm_num [effScore, C3wC, C3wCust])
    (by norm_num [capExceeded, C3wC, C3wCust])
    rfl (by norm_num) (by norm_num [C3wCust])

/-- Counterexample to C4 as stated: a request over twice the positive
pre-approved limit but with credit score 600 is rejected with reason
credit_score_below_700; the cap reason does not appear. -/
theorem C4_counterexample :
    0 < C4cexCust.pre_approved_limit ∧
    2 * C4cexCust.pre_approved_limit < C4cexC.loan_amount.getD 0 ∧
    (handle C4cexC 0).decision = "rejected" ∧
    (handle C4cexC 0).reasons = ["credit_score_below_700"] ∧
    "amount_exceeds_two_times_preapproved" ∉ (handle C4cexC 0).reasons := by
  refine ⟨by norm_num [C4cexCust], by norm_num [C4cexC, C4cexCust], ?_, ?_, ?_⟩ <;>
    norm_num [handle, handleFound, resolveIncome, optTruthy, ContentVal.toNum,
      C4cexC, C4cexCust]
  decide

/-- Witness for C4 (amended) at a concrete input: loan 300000 against
a pre-approved limit of 100000 with credit score 780. -/
theorem C4_witness :
    (handle C4wC 0).decision = "rejected" ∧
    (handle C4wC 0).reasons = ["amount_exceeds_two_times_preapproved"] :=
  C4_cap_invariant C4wC 0 C4wCust rfl
    (by norm_num [effScore, C4wC, C4wCust])
    (by norm_num [capExceeded, C4wC, C4wCust])

/-- Witness for C5 at two concrete inputs: loan 50000 within the
limit (instant approval) and loan 150000 above it (salary slip
requested). -/
theorem C5_witness :
    ((handle C5cA 0).decision = "approved" ∧
     (handle C5cA 0).approval_type = some "instant" ∧
     (handle C5cA 0).interest_rate = some 12 ∧
     (handle C5cA 0).income_provenance = some "instant_no_doc" ∧
     ∃ ld, (handle C5cA 0).loan_details = some ld ∧ ld.processing_fee = 0) ∧
    ((handle C5cB 0).decision = "needs_salary_slip" ∧
     (handle C5cB 0).reasons = ["salary_slip_required"]) :=
  ⟨(C5_missing_income_branches C5cA 0 C5cust rfl
      (by norm_num [effScore, C5cA, C5cust])
      (by norm_num [capExceeded, C5cA, C5cust])
      (by norm_num [resolveIncome, optTruthy, ContentVal.toNum, C5cA, C5cust])).1
    (by norm_num [C5cA, C5cust]),
   (C5_missing_income_branches C5cB 0 C5cust rfl
      (by norm_num [effScore, C5cB, C5cust])
      (by norm_num [capExceeded, C5cB, C5cust])
      (by norm_num [resolveIncome, optTruthy, ContentVal.toNum, C5cB, C5cust])).2
    (by norm_num [C5cB, C5cust])⟩

/-- Witness for C6 at a concrete input: doc salary 300000 against db
monthly income 50000, ratio 6. -/
theorem C6_witness :
    (handle C6c 0).decision = "approved" ∧
    Anomaly.salary_mismatch 300000 (C6cust.annual_income / 12)
        (pyRound2 (max ((300000 : ℚ) / (C6cust.annual_income / 12))
          ((C6cust.annual_income / 12) / 300000)))
      ∈ (handle C6c 0).anomalies_detected ∧
    (handle C6c 0).flag_for_manual_review = true :=
  C6_anomaly_non_blocking C6c 0 C6cust 300000 rfl
    (by norm_num [effScore, C6c, C6cust])
    (by norm_num [capExceeded, C6c, C6cust])
    (by norm_num [resolveIncome, optTruthy, ContentVal.toNum, C6c, C6cust])
    (by norm_num)
    (by norm_num [decisionEmi, selectedRate, emi, C6c, C6cust])
    (by norm_num [C6cust])
    (by norm_num [C6cust, le_max_iff])

/-- Counterexample to C7 as stated: a strictly negative doc-provided
candidate (-100) is selected by the resolver with provenance
doc_provided instead of being treated as absent, so the positive
db-derived candidate (50000) is never reached and the evaluation ends
in needs_salary_slip. -/
theorem C7_counterexample :
    resolveIncome C7c (C7cust.annual_income / 12) = (some (-100), some "doc_provided") ∧
    0 < C7cust.annual_income / 12 ∧
    (handle C7c 0).decision = "needs_salary_slip" := by
  refine ⟨?_, by norm_num [C7cust], ?_⟩ <;>
    norm_num [handle, handleFound, resolveIncome, optTruthy, ContentVal.toNum,
      C7c, C7cust]

/-- Witness for C7 (amended) at the concrete inputs of the
counterexample plus a content whose doc candidate is zero. -/
theorem C7_witness :
    (resolveIncome C7c (C7cust.annual_income / 12)).1 = some (-100) ∧
    (handle C7c 0).monthly_salary_used ≠ some (-100) ∧
    (handle C7c 0).emi_ratio = none ∧
    ((handle C7c 0).decision = "approved" ∨
      (handle C7c 0).decision = "needs_salary_slip") ∧
    (resolveIncome C7z 0).2 ≠ some "doc_provided" :=
  C7_candidate_presence C7c 0 C7cust (-100) rfl
    (by norm_num [effScore, C7c, C7cust])
    (by norm_num [capExceeded, C7c, C7cust])
    rfl (by norm_num) C7z 0 rfl

/-- Counterexample to C8 as stated: positive doc-provided income
evidence (50000) exists, yet on a credit-score rejection the
emi_ratio field is left unpopulated. -/
theorem C8_counterexample :
    (resolveIncome C8c (C8cust.annual_income / 12)).1 = some 50000 ∧
    0 < (50000 : ℚ) ∧
    (handle C8c 0).decision = "rejected" ∧
    (handle C8c 0).emi_ratio = none := by
  refine ⟨?_, by norm_num, ?_, ?_⟩ <;>
    norm_num [handle, handleFound, resolveIncome, optTruthy, ContentVal.toNum,
      C8c, C8cust]

/-- Witness for C8 (amended) at a concrete input. -/
theorem C8_witness :
    ((handle C8c 0).emi_ratio ≠ none ↔
      700 ≤ effScore C8c C8cust ∧ ¬ capExceeded C8c C8cust ∧
      0 < (resolveIncome C8c (C8cust.annual_income / 12)).1.getD 0) :=
  C8_emi_ratio_iff C8c 0 C8cust rfl

/-- Counterexample to C9 as stated: a request above the pre-approved
limit that is rejected at the credit-score gate leaves
requires_income_doc false. -/
theorem C9_counterexample :
    C9cexCust.pre_approved_limit < C9cexC.loan_amount.getD 0 ∧
    (handle C9cexC 0).requires_income_doc = false := by
  refine ⟨by norm_num [C9cexC, C9cexCust], ?_⟩
  norm_num [handle, handleFound, resolveIncome, optTruthy, ContentVal.toNum,
    C9cexC, C9cexCust]

/-- Witness for C9 (amended) at a concrete input: loan 150000 against
a limit of 100000 with credit score 780. -/
theorem C9_witness :
    ((handle C9wC 0).requires_income_doc = true ↔
      C9wCust.pre_approved_limit < C9wC.loan_amount.getD 0) :=
  C9_requires_income_doc C9wC 0 C9wCust rfl
    (by norm_num [effScore, C9wC, C9wCust])
    (by norm_num [capExceeded, C9wC, C9wCust])

end UnderwritingAgent
